import Mathlib

/-!
# Verification of the kairos-cli core

A shallow embedding, in Lean 4, of the core logic of the kairos-cli terminal
dashboard for Temporal workflow executions:

* the history-compaction engine `createCompactHistory` and the focused-mode
  key handler (source file `src/unnamed/part_003`),
* the query builder `constructQueryString`, the list-synchronizer merge
  handlers, the confirmation flow and the pagination logic of the Bubble Tea
  `Update` reducer (source file `src/main.go`).

Go maps are modelled as association lists (assignment replaces the binding
for the key), Go slices as `List`, `int64`/`int32` as `Int`, byte strings as
`String`.  A Go runtime panic (nil-pointer dereference, out-of-range index)
is modelled by returning `none` from the function that would fault.
-/

namespace Kairos

/-- Go map assignment `m[k] = v` on an association list keyed by `Int`:
the binding for `k` (if any) is replaced, keeping keys unique. -/
def updInt {α : Type} (l : List (Int × α)) (k : Int) (v : α) : List (Int × α) :=
  (l.filter (fun p => p.1 != k)) ++ [(k, v)]

/-- Go map lookup `m[k]` for a map with pointer values: `none` models the
`nil` pointer returned for an absent key. -/
def lookupInt {α : Type} (l : List (Int × α)) (k : Int) : Option α :=
  (l.find? (fun p => p.1 == k)).map (·.2)

/-- Model of Go `strings.Contains s pat`: `pat` occurs as a contiguous
substring of `s`. -/
def strContainsSub (s pat : String) : Bool :=
  s.toList.tails.any (fun t => pat.toList.isPrefixOf t)

/-! ## Event model (`go.temporal.io/api/history/v1` as consumed by the code)

Only the enum values that `createCompactHistory` names get their own
constructor; every other event type is `otherEvent s` where `s` is the
value of the Go `EventType.String()` method (Temporal renders enum values
in CamelCase, e.g. `"WorkflowTaskScheduled"`). -/

inductive EventType where
  | activityTaskScheduled
  | activityTaskStarted
  | activityTaskCompleted
  | activityTaskFailed
  | activityTaskTimedOut
  | activityTaskCancelRequested
  | activityTaskCanceled
  | timerStarted
  | timerFired
  | timerCanceled
  | startChildWorkflowExecutionInitiated
  | childWorkflowExecutionStarted
  | childWorkflowExecutionCompleted
  | childWorkflowExecutionFailed
  | workflowExecutionStarted
  | workflowExecutionCompleted
  | workflowExecutionSignaled
  | workflowTaskScheduled
  | workflowTaskStarted
  | workflowTaskCompleted
  | workflowTaskTimedOut
  | workflowTaskFailed
  | otherEvent (name : String)
deriving DecidableEq, Repr

/-- The Go `EventType.String()` rendering of each event type. -/
def eventTypeString : EventType → String
  | .activityTaskScheduled => "ActivityTaskScheduled"
  | .activityTaskStarted => "ActivityTaskStarted"
  | .activityTaskCompleted => "ActivityTaskCompleted"
  | .activityTaskFailed => "ActivityTaskFailed"
  | .activityTaskTimedOut => "ActivityTaskTimedOut"
  | .activityTaskCancelRequested => "ActivityTaskCancelRequested"
  | .activityTaskCanceled => "ActivityTaskCanceled"
  | .timerStarted => "TimerStarted"
  | .timerFired => "TimerFired"
  | .timerCanceled => "TimerCanceled"
  | .startChildWorkflowExecutionInitiated => "StartChildWorkflowExecutionInitiated"
  | .childWorkflowExecutionStarted => "ChildWorkflowExecutionStarted"
  | .childWorkflowExecutionCompleted => "ChildWorkflowExecutionCompleted"
  | .childWorkflowExecutionFailed => "ChildWorkflowExecutionFailed"
  | .workflowExecutionStarted => "WorkflowExecutionStarted"
  | .workflowExecutionCompleted => "WorkflowExecutionCompleted"
  | .workflowExecutionSignaled => "WorkflowExecutionSignaled"
  | .workflowTaskScheduled => "WorkflowTaskScheduled"
  | .workflowTaskStarted => "WorkflowTaskStarted"
  | .workflowTaskCompleted => "WorkflowTaskCompleted"
  | .workflowTaskTimedOut => "WorkflowTaskTimedOut"
  | .workflowTaskFailed => "WorkflowTaskFailed"
  | .otherEvent s => s

/-- A history event together with the attribute fields the compaction code
reads.  Proto getters are nil-safe in Go and return zero values, which the
defaults reproduce; payload slices are `Option (List String)` so that the
`GetPayloads() != nil` test (`none` = nil slice) and the panicking
`GetPayloads()[0]` index on an empty slice are both expressible. -/
structure HistoryEvent where
  eventId : Int
  eventType : EventType
  activityId : String := ""
  activityTypeName : String := ""
  inputPayloads : Option (List String) := none
  resultPayloads : Option (List String) := none
  scheduledEventId : Int := 0
  startedEventId : Int := 0
  initiatedEventId : Int := 0
  timerId : String := ""
  childWorkflowTypeName : String := ""
  signalName : String := ""
  childWorkflowId : String := ""
  childRunId : String := ""
deriving DecidableEq, Repr

/-- The fields of `workflow.PendingActivityInfo` the code reads
(`GetActivityId`, `GetAttempt`, `GetLastFailure().GetCause().GetMessage()`). -/
structure PendingActivityInfo where
  activityId : String
  attempt : Int
  lastFailureCauseMessage : String := ""
deriving DecidableEq, Repr

/-- `eventContent` from `src/unnamed/part_003`: one content block of a
compacted record. -/
structure eventContent where
  eventType : String
  eventData : String
deriving DecidableEq, Repr

/-- `compactHistoryListItem` from `src/unnamed/part_003`. -/
structure compactHistoryListItem where
  events : List HistoryEvent := []
  eventsContent : List eventContent := []
  icon : String := ""
  actionType : String := ""
  rowContent : String := ""
deriving DecidableEq, Repr

/-- `compactedHistory = map[int64]*compactHistoryListItem`, as an
association list. -/
abbrev compactedHistory : Type := List (Int × compactHistoryListItem)

/-- The record created by `&compactHistoryListItem{events: make(...)}`
(all other fields at their Go zero values). -/
def emptyItem : compactHistoryListItem :=
  { events := [], eventsContent := [], icon := "", actionType := "", rowContent := "" }

/-- One iteration of the `for _, historyEvent := range historyList` loop of
`createCompactHistory` (`src/unnamed/part_003`, lines 130-296).  `pretty`
stands for `convertDataToPrettyJSON` (JSON re-indentation via the standard
library, kept abstract).  `none` models a Go runtime panic: either the
nil-pointer dereference that follows `compactedHistory[k]` when a
continuation event's back-reference key `k` has no record, or the
out-of-range index `GetPayloads()[0]` on an empty payload slice. -/
def compactStep (pretty : String → String) (pendingActivities : List PendingActivityInfo)
    (acc : compactedHistory) (e : HistoryEvent) : Option compactedHistory :=
  match e.eventType with
  | .activityTaskScheduled =>
      let item := { emptyItem with
        actionType := "Activity", icon := "📅", rowContent := e.activityTypeName }
      let item :=
        match pendingActivities.find? (fun p => p.activityId == e.activityId) with
        | some p =>
            { item with
              eventsContent := item.eventsContent ++
                [eventContent.mk "Last Error" p.lastFailureCauseMessage],
              rowContent := item.rowContent ++ " 🔄" ++ toString p.attempt }
        | none => item
      match e.inputPayloads with
      | some [] => none
      | some (d :: _) =>
          some (updInt acc e.eventId
            { item with
              eventsContent := item.eventsContent ++ [eventContent.mk "Input" (pretty d)],
              events := [e] })
      | none => some (updInt acc e.eventId { item with events := [e] })
  | .activityTaskStarted =>
      match lookupInt acc e.scheduledEventId with
      | none => none
      | some it =>
          some (updInt acc e.scheduledEventId { it with icon := "🏃", events := it.events ++ [e] })
  | .activityTaskCompleted =>
      match lookupInt acc e.scheduledEventId with
      | none => none
      | some it =>
          match e.resultPayloads with
          | some (d :: _) =>
              some (updInt acc e.scheduledEventId
                { it with
                  icon := "✅", events := it.events ++ [e],
                  eventsContent := it.eventsContent ++ [eventContent.mk "Output" (pretty d)] })
          | _ => none
  | .activityTaskFailed =>
      match lookupInt acc e.scheduledEventId with
      | none => none
      | some it =>
          some (updInt acc e.scheduledEventId { it with icon := "❌", events := it.events ++ [e] })
  | .activityTaskTimedOut =>
      match lookupInt acc e.scheduledEventId with
      | none => none
      | some it =>
          some (updInt acc e.scheduledEventId { it with icon := "⏰", events := it.events ++ [e] })
  | .activityTaskCancelRequested =>
      match lookupInt acc e.scheduledEventId with
      | none => none
      | some it =>
          some (updInt acc e.scheduledEventId { it with icon := "🚫", events := it.events ++ [e] })
  | .activityTaskCanceled =>
      match lookupInt acc e.scheduledEventId with
      | none => none
      | some it =>
          some (updInt acc e.scheduledEventId { it with icon := "🚫", events := it.events ++ [e] })
  | .timerStarted =>
      some (updInt acc e.eventId
        { emptyItem with
          actionType := "Timer", icon := "⏰", rowContent := e.timerId, events := [e] })
  | .timerFired =>
      match lookupInt acc e.startedEventId with
      | none => none
      | some it =>
          some (updInt acc e.startedEventId { it with icon := "🔥", events := it.events ++ [e] })
  | .timerCanceled =>
      match lookupInt acc e.startedEventId with
      | none => none
      | some it =>
          some (updInt acc e.startedEventId { it with icon := "🚫", events := it.events ++ [e] })
  | .startChildWorkflowExecutionInitiated =>
      let item := { emptyItem with
        actionType := "Child Workflow", icon := "👶🏃", rowContent := e.childWorkflowTypeName }
      match e.inputPayloads with
      | some [] => none
      | some (d :: _) =>
          some (updInt acc e.eventId
            { item with
              eventsContent := [eventContent.mk "Input" (pretty d)],
              events := [e] })
      | none => some (updInt acc e.eventId { item with events := [e] })
  | .childWorkflowExecutionStarted =>
      match lookupInt acc e.initiatedEventId with
      | none => none
      | some it =>
          some (updInt acc e.initiatedEventId { it with icon := "🏃👶", events := it.events ++ [e] })
  | .childWorkflowExecutionCompleted =>
      match lookupInt acc e.initiatedEventId with
      | none => none
      | some it =>
          match e.resultPayloads with
          | some [] => none
          | some (d :: _) =>
              some (updInt acc e.initiatedEventId
                { it with
                  eventsContent := it.eventsContent ++ [eventContent.mk "Output" (pretty d)],
                  icon := "✅👶", events := it.events ++ [e] })
          | none =>
              some (updInt acc e.initiatedEventId { it with icon := "✅👶", events := it.events ++ [e] })
  | .childWorkflowExecutionFailed =>
      match lookupInt acc e.initiatedEventId with
      | none => none
      | some it => some (updInt acc e.initiatedEventId { it with icon := "❌👶" })
  | .workflowExecutionStarted =>
      let item := { emptyItem with
        actionType := eventTypeString .workflowExecutionStarted,
        icon := "🚀", rowContent := "Workflow started" }
      match e.inputPayloads with
      | some [] => none
      | some (d :: _) =>
          some (updInt acc e.eventId
            { item with
              eventsContent := [eventContent.mk "Input" (pretty d)],
              events := [e] })
      | none => some (updInt acc e.eventId { item with events := [e] })
  | .workflowExecutionCompleted =>
      let item := { emptyItem with
        actionType := eventTypeString .workflowExecutionCompleted, icon := "✅" }
      match e.resultPayloads with
      | some [] => none
      | some (d :: _) =>
          some (updInt acc e.eventId
            { item with
              eventsContent := [eventContent.mk "Output" (pretty d)],
              events := [e] })
      | none => some (updInt acc e.eventId { item with events := [e] })
  | .workflowExecutionSignaled =>
      some (updInt acc e.eventId
        { emptyItem with
          actionType := eventTypeString .workflowExecutionSignaled,
          icon := "🛜", rowContent := e.signalName, events := [e] })
  | t =>
      if (lookupInt acc e.eventId).isNone && !(strContainsSub (eventTypeString t) "WorkflowTask") then
        some (updInt acc e.eventId
          { emptyItem with actionType := eventTypeString t, events := [e] })
      else
        some acc

/-- The event loop of `createCompactHistory`, threading the accumulator map
through `compactStep`; a panic (`none`) aborts the pass. -/
def compactLoop (pretty : String → String) (pendingActivities : List PendingActivityInfo) :
    compactedHistory → List HistoryEvent → Option compactedHistory
  | acc, [] => some acc
  | acc, e :: rest =>
      match compactStep pretty pendingActivities acc e with
      | none => none
      | some acc2 => compactLoop pretty pendingActivities acc2 rest

/-- `createCompactHistory` (`src/unnamed/part_003`, lines 128-298): a single
forward pass over the event list, starting from the empty map.  Returns
`none` when the Go original would panic. -/
def createCompactHistory (pretty : String → String) (historyList : List HistoryEvent)
    (pendingActivities : List PendingActivityInfo) : Option compactedHistory :=
  compactLoop pretty pendingActivities [] historyList

/-! ## Focused-mode drill-into-child key (`src/unnamed/part_003`, lines 67-101) -/

/-- The sort key of `getCurrentCompactHistorySlice`: `events[0].GetEventId()`.
Compaction only ever creates records holding at least one member event, so
the default `0` for an empty list is never consulted on reachable inputs
(the Go comparator would panic there). -/
def firstEventId (it : compactHistoryListItem) : Int :=
  match it.events with
  | [] => 0
  | e :: _ => e.eventId

/-- Insertion into a list kept in descending `firstEventId` order. -/
def insertDescByFirst (x : compactHistoryListItem) :
    List compactHistoryListItem → List compactHistoryListItem
  | [] => [x]
  | y :: ys =>
      if firstEventId y < firstEventId x then x :: y :: ys else y :: insertDescByFirst x ys

/-- `getCurrentCompactHistorySlice` (`src/unnamed/part_003`, lines 376-390):
collect the map's records into a slice and sort it with
`sort.Slice(..., events[0].GetEventId() > events[0].GetEventId())`, i.e. by
descending first-member event ID (record keys are distinct, so the order is
unique and matches any Go-map iteration order). -/
def getCurrentCompactHistorySlice (h : compactedHistory) : List compactHistoryListItem :=
  (h.map (·.2)).foldr insertDescByFirst []

/-- Outcome of the focused-mode `FocusChildWorkflow` keypress. -/
inductive FocusChildResult where
  | unchanged
  | push (workflowId runId : String)
deriving DecidableEq, Repr

/-- The `FocusChildWorkflow` branch of `UpdateFocusedModeState`
(`src/unnamed/part_003`, lines 72-83): guard on the number of RECORDS in the
slice (`len(currentHistorySlice) < 2`), then read
`currentHistorySlice[cursor].events[1]` and push the child execution when it
is a `ChildWorkflowExecutionStarted` event.  `none` models the Go
index-out-of-range panic from `currentHistorySlice[cursor]` or `events[1]`. -/
def focusChildWorkflowKey (compactHistory : compactedHistory) (cursor : Nat) :
    Option FocusChildResult :=
  let currentHistorySlice := getCurrentCompactHistorySlice compactHistory
  if currentHistorySlice.length < 2 then
    some .unchanged
  else
    match currentHistorySlice[cursor]? with
    | none => none
    | some currentHistoryItem =>
        match currentHistoryItem.events[1]? with
        | none => none
        | some secondHistoryEvent =>
            if secondHistoryEvent.eventType = .childWorkflowExecutionStarted then
              some (.push secondHistoryEvent.childWorkflowId secondHistoryEvent.childRunId)
            else
              some .unchanged

/-! ## Query builder (`src/main.go`, lines 1506-1529) -/

/-- The OR-group built for one filter field:
`"(" + strings.Join(querySegments, " OR ") + ")"` where each segment is
`fmt.Sprintf("%s = '%s'", searchMode, searchValue)`. -/
def queryGroupString (f : String) (vs : List String) : String :=
  "(" ++ String.intercalate " OR " (vs.map (fun v => f ++ " = \x27" ++ v ++ "\x27")) ++ ")"

/-- The `for searchMode, searchValues := range currentSearchParams` loop of
`constructQueryString`: skip empty value sets, separate groups already in
the accumulator with `" AND "`. -/
def queryLoop : String → List (String × List String) → String
  | qs, [] => qs
  | qs, (f, vs) :: rest =>
      if vs.isEmpty then
        queryLoop qs rest
      else
        let qs2 := if qs = "" then qs else qs ++ " AND "
        queryLoop (qs2 ++ queryGroupString f vs) rest

/-- `constructQueryString` (`src/main.go`, lines 1506-1529).  Go iterates the
`activeSearchParams` map in unspecified order; `params` stands for one such
iteration order, so theorems quantify over all orders. -/
def constructQueryString (parentWorkflowMode : Bool)
    (params : List (String × List String)) : String :=
  queryLoop (if parentWorkflowMode then "ParentWorkflowId is null" else "") params

/-- Joining clause groups with `" AND "`, as the spec words it (section 4.4). -/
def andJoin : List String → String
  | [] => ""
  | [g] => g
  | g :: gs => g ++ " AND " ++ andJoin gs

/-- The query expression as the spec describes it: a parenthesized OR-group
per filter field with at least one value, all groups joined with AND, with
the fixed parents-only clause prepended in parent-workflow mode, and the
empty (permissive) expression when nothing contributes. -/
def queryStringSpec (parentWorkflowMode : Bool)
    (params : List (String × List String)) : String :=
  andJoin ((if parentWorkflowMode then ["ParentWorkflowId is null"] else []) ++
    (params.filter (fun p => !p.2.isEmpty)).map (fun p => queryGroupString p.1 p.2))

/-- The OR-groups contributed by the filter fields, in iteration order. -/
def queryGroups (params : List (String × List String)) : List String :=
  (params.filter (fun p => !p.2.isEmpty)).map (fun p => queryGroupString p.1 p.2)

/-- An event whose type tag is outside the internal workflow-task
bookkeeping family (`strings.Contains(eventType.String(), "WorkflowTask")`
is false). -/
def nonBookkeeping (e : HistoryEvent) : Prop :=
  strContainsSub (eventTypeString e.eventType) "WorkflowTask" = false

/-- Invariant of the compaction accumulator: every member event of every
record is non-bookkeeping. -/
def GoodHistory (h : compactedHistory) : Prop :=
  ∀ p ∈ h, ∀ e ∈ (Prod.snd p).events, nonBookkeeping e

/-! ## List synchronizer (`src/main.go`)

Rows of the root list view and the two background-sync merge handlers of
the Bubble Tea `Update` reducer. -/

/-- Go map operations on string-keyed association lists (`map[string]T`). -/
def lookupStr {α : Type} (l : List (String × α)) (k : String) : Option α :=
  (l.find? (fun p => p.1 == k)).map (·.2)

def updStr {α : Type} (l : List (String × α)) (k : String) (v : α) : List (String × α) :=
  (l.filter (fun p => p.1 != k)) ++ [(k, v)]

/-- The fields of `workflow.WorkflowExecutionInfo` that identify an
execution and that the background sync refreshes. -/
structure WorkflowExecutionInfo where
  workflowId : String
  runId : String := ""
  status : String := "Running"
  closeTime : Option Int := none
deriving DecidableEq, Repr

/-- `workflowTableListItem` (`src/main.go`, lines 1948-1953): one row of the
root list view; identity is `workflow.Execution.WorkflowId`. -/
structure workflowTableListItem where
  workflow : WorkflowExecutionInfo
  history : List HistoryEvent := []
  pendingActivities : List PendingActivityInfo := []
  attempts : Int := 0
deriving DecidableEq, Repr

/-- The body of the `updateVisibleWorkflowsMsg` loop for one existing row
(`src/main.go`, lines 2077-2082): when the sync map holds a binding for the
row's workflowId, overwrite the row's `workflow` field with it; otherwise
leave the row untouched. -/
def mergeRowWorkflow (workflowsMap : List (String × WorkflowExecutionInfo))
    (w : workflowTableListItem) : workflowTableListItem :=
  match lookupStr workflowsMap w.workflow.workflowId with
  | some updated => { w with workflow := updated }
  | none => w

/-- The `updateVisibleWorkflowsMsg` branch of `Update` (`src/main.go`, lines
2076-2083): the in-place `for i, existingWorkflow := range m.workflows`
merge, as a map over the row collection. -/
def applyUpdateVisibleWorkflows (workflows : List workflowTableListItem)
    (workflowsMap : List (String × WorkflowExecutionInfo)) :
    List workflowTableListItem :=
  workflows.map (mergeRowWorkflow workflowsMap)

/-- The body of the `updateVisibleWorkflowAttempsMsg` loop for one row
(`src/main.go`, lines 2068-2073): overwrite only `attempts` on a match. -/
def mergeRowAttempts (updateMapping : List (String × Int))
    (w : workflowTableListItem) : workflowTableListItem :=
  match lookupStr updateMapping w.workflow.workflowId with
  | some a => { w with attempts := a }
  | none => w

/-- The `updateVisibleWorkflowAttempsMsg` branch of `Update` (`src/main.go`,
lines 2067-2074). -/
def applyUpdateVisibleWorkflowAttemps (workflows : List workflowTableListItem)
    (updateMapping : List (String × Int)) : List workflowTableListItem :=
  workflows.map (mergeRowAttempts updateMapping)

/-- The pure tail of `updateVisibleWorkflowsBackgroundCmd` (`src/main.go`,
lines 1896-1903): keep each fetched execution that matches a current row by
workflowId, keyed by that workflowId.  (The Go inner loop assigns
`returnObj[id] = updatedWorkflow` once per matching row; repeating the
identical assignment equals assigning when a match exists.) -/
def buildVisibleWorkflowsMap (fetched : List WorkflowExecutionInfo)
    (current : List workflowTableListItem) : List (String × WorkflowExecutionInfo) :=
  fetched.foldl (fun acc u =>
    if current.any (fun w => w.workflow.workflowId == u.workflowId) then
      updStr acc u.workflowId u
    else acc) []

/-- Key consistency of a sync-result map: each binding holds the execution
whose identity is the key.  Every map the background sync produces has this
shape (see `buildVisibleWorkflowsMap_keyConsistent`). -/
def KeyConsistent (m : List (String × WorkflowExecutionInfo)) : Prop :=
  ∀ k v, lookupStr m k = some v → v.workflowId = k

/-! ## Application loop (the Bubble Tea `Update` reducer, `src/main.go`)

Keypresses are the `msg.String()` values; `tea.Cmd` values returned by the
reducer are modelled as first-order `Cmd` data, and running a command is a
pure function to (number of invocations of the bound destructive action,
optionally a delivered message). -/

/-- Go map operations on `map[int][]byte` (the next-page-token cache). -/
def lookupNat {α : Type} (l : List (Nat × α)) (k : Nat) : Option α :=
  (l.find? (fun p => p.1 == k)).map (·.2)

def updNat {α : Type} (l : List (Nat × α)) (k : Nat) (v : α) : List (Nat × α) :=
  (l.filter (fun p => p.1 != k)) ++ [(k, v)]

/-- `confirmationFlowStateEnums` (`src/main.go`, lines 1366-1373). -/
inductive confirmationFlowStateEnums where
  | NO_FLOW_RUNNING
  | AWAITING_CONFIRMATION
  | EXECUTING_ACTION
  | ACTION_COMPLETED
deriving DecidableEq, Repr

/-- The identity of the closure bound as `commandThatRunsOnConfirmation`:
the destructive call it would perform, with its captured arguments. -/
inductive BoundAction where
  | noAction
  | terminateAction (workflowId runId : String)
  | restartAction (workflowId runId : String)
deriving DecidableEq, Repr

/-- `confirmationFlowStateMsg` (`src/main.go`, lines 1375-1381), with the
callback field abstracted to its identity. -/
structure confirmationFlowStateMsg where
  state : confirmationFlowStateEnums
  pendingConfirmationMessage : String := ""
  executionSuccessMessage : String := ""
  areYouSureMessage : String := ""
  commandThatRunsOnConfirmation : BoundAction := .noAction
deriving DecidableEq, Repr

/-- One entry of `compactedHistoryStack` (`compactHistoryStackItem`,
`src/unnamed/part_003`, lines 50-55; the fetched workflow description is
used only for rendering and is omitted). -/
structure compactHistoryStackItem where
  workflowId : String
  runId : String
  compactHistory : compactedHistory
deriving DecidableEq, Repr

/-- The fields of the Bubble Tea `model` (`src/main.go`, lines 1955-1974)
that the reducer branches below read or write.  The bubbles `textinput` is
abstracted to (focused, value, prompt); rendering-only fields (viewport,
help width, counts) are omitted. -/
structure model where
  confirmationFlowState : confirmationFlowStateMsg := { state := .NO_FLOW_RUNNING }
  page : Nat := 0
  nextPageTokenCache : List (Nat × List Nat) := [(0, [])]
  cursor : Nat := 0
  workflows : List workflowTableListItem := []
  parentWorkflowMode : Bool := false
  activeSearchParams : List (String × List String) := []
  searchMode : String := ""
  searchInputFocused : Bool := false
  searchInputValue : String := ""
  searchInputPrompt : String := ""
  compactedHistoryStack : List compactHistoryStackItem := []
  focusedCursor : Nat := 0
  selected : List (Nat × Bool) := []
  helpShowAll : Bool := false
deriving DecidableEq, Repr

/-- `TABLE_LIST_PAGE_SIZE` (`src/main.go`, line 1320). -/
def TABLE_LIST_PAGE_SIZE : Nat := 40

/-- A `ListWorkflowExecutionsRequest` as issued by `refetchWorkflowsCmd`. -/
structure ListRequest where
  query : String
  pageSize : Nat
  nextPageToken : List Nat
deriving DecidableEq, Repr

/-- The commands the modelled reducer branches return. -/
inductive Cmd where
  | none
  | quit
  | refetchWorkflows (req : ListRequest)
  | openBrowser (workflowId runId : String)
  | confirmationRequest (msg : confirmationFlowStateMsg)
  | runConfirmedAction (st : confirmationFlowStateMsg)
  | clearCompletion (st : confirmationFlowStateMsg)
  | focusWorkflow (workflowId runId : String)
  | searchOptions
deriving DecidableEq, Repr

/-- `clearListState` (`src/main.go`, lines 1559-1565). -/
def clearListState (m : model) : model :=
  { m with page := 0, cursor := 0, nextPageTokenCache := [(0, [])] }

/-- The request `refetchWorkflowsCmd` (`src/main.go`, lines 1784-1809)
issues when it runs: the current query, the fixed page size, and
`m.nextPageTokenCache[m.page]` — the Go map read yields nil (the empty
token) when the page has no cached token, and the request is issued with
it regardless. -/
def refetchWorkflowsRequest (m : model) : ListRequest :=
  { query := constructQueryString m.parentWorkflowMode m.activeSearchParams,
    pageSize := TABLE_LIST_PAGE_SIZE,
    nextPageToken := (lookupNat m.nextPageTokenCache m.page).getD [] }

/-- `terminateWorkflowCmd` (`src/main.go`, lines 1656-1673): returns the
command that delivers the confirmation request with the terminate closure
bound. -/
def terminateWorkflowCmd (workflowId runId : String) : Cmd :=
  .confirmationRequest
    { state := .AWAITING_CONFIRMATION,
      areYouSureMessage :=
        "Are you sure you want to terminate workflow " ++ workflowId ++ "?",
      pendingConfirmationMessage := "Are you sure you want to terminate this workflow?",
      commandThatRunsOnConfirmation := .terminateAction workflowId runId }

/-- `restartWorkflowCmd` (`src/main.go`, lines 1606-1654): the analogous
confirmation request with the reset closure bound. -/
def restartWorkflowCmd (workflowId runId : String) : Cmd :=
  .confirmationRequest
    { state := .AWAITING_CONFIRMATION,
      executionSuccessMessage := "Workflow restarted successfully",
      areYouSureMessage :=
        "Are you sure you want to restart workflow " ++ workflowId ++ "?",
      pendingConfirmationMessage := "Are you sure you want to restart this workflow?",
      commandThatRunsOnConfirmation := .restartAction workflowId runId }

/-- Running a command: the number of times the bound destructive action is
invoked, and the confirmation message the command delivers back to the
reducer, if any.  `runConfirmedAction st` is the `wrappedFunc` built on a
"y" keypress (`src/main.go`, lines 2100-2105): it calls
`commandThatRunsOnConfirmation()` exactly once and returns the flow state
with `ACTION_COMPLETED`; `clearCompletion st` is `clearCompletionCmd`
(lines 1598-1604): after the fixed 3-second tick it delivers the flow
state with `NO_FLOW_RUNNING`. -/
def runCmdConfirmation : Cmd → Nat × Option confirmationFlowStateMsg
  | .confirmationRequest msg => (0, some msg)
  | .runConfirmedAction st => (1, some { st with state := .ACTION_COMPLETED })
  | .clearCompletion st => (0, some { st with state := .NO_FLOW_RUNNING })
  | _ => (0, none)

/-- The `confirmationFlowStateMsg` branch of `Update` (`src/main.go`, lines
2047-2058). -/
def applyConfirmationFlowStateMsg (m : model) (msg : confirmationFlowStateMsg) :
    model × Cmd :=
  match msg.state with
  | .NO_FLOW_RUNNING | .AWAITING_CONFIRMATION | .EXECUTING_ACTION =>
      ({ m with confirmationFlowState := msg }, .none)
  | .ACTION_COMPLETED =>
      (clearListState { m with confirmationFlowState := msg }, .clearCompletion msg)

/-- The `updateWorkflowsMsg` branch of `Update` (`src/main.go`, lines
2089-2092): replace the rows and cache the fetch's next-page token for the
following page. -/
def applyUpdateWorkflowsMsg (m : model) (workflows : List workflowTableListItem)
    (nextPageToken : List Nat) : model :=
  { m with workflows := workflows,
           nextPageTokenCache := updNat m.nextPageTokenCache (m.page + 1) nextPageToken }

/-- `DefaultKeyMap` (`src/main.go`, lines 1218-1287): the key strings of
each binding. -/
def keysUp : List String := ["k", "up"]
def keysDown : List String := ["j", "down"]
def keysSearchWorkflowType : List String := ["w", "search Type"]
def keysSearchWorkflowId : List String := ["i", "search WorkflowId"]
def keysSearchExecutionStatus : List String := ["s", "search Status"]
def keysHelp : List String := ["?"]
def keysExit : List String := ["ctrl+c"]
def keysClearSearch : List String := ["c"]
def keysRefetchWorkflows : List String := ["r"]
def keysSelect : List String := ["enter", "space"]
def keysOpenWorkflowInWeb : List String := ["o"]
def keysTerminateWorkflow : List String := ["t"]
def keysRestartWorkflow : List String := ["R"]
def keysToggleParentWorkflowMode : List String := ["p"]
def keysFocusWorkflow : List String := ["f"]
def keysNextPage : List String := ["]"]
def keysPrevPage : List String := ["["]

/-- `FocusedModeKeyMap` (`src/unnamed/part_003`, lines 27-48). -/
def focusedKeysFocusChildWorkflow : List String := ["f"]
def focusedKeysUp : List String := ["k", "up"]
def focusedKeysDown : List String := ["j", "down"]
def focusedKeysBack : List String := ["esc"]
def focusedKeysExit : List String := ["ctrl+c"]

/-- `key.Matches`: the keypress equals one of the binding's key strings. -/
def keyMatches (key : String) (binding : List String) : Bool :=
  binding.contains key

/-- `handleSearchModeSelect` (`src/main.go`, lines 1416-1433). -/
def handleSearchModeSelect (m : model) (key : String) : model :=
  let m := if keyMatches key keysSearchWorkflowType then
      { m with searchMode := "WorkflowType",
               searchInputPrompt := "Search WorkflowType: ", searchInputFocused := true }
    else m
  let m := if keyMatches key keysSearchWorkflowId then
      { m with searchMode := "WorkflowId", searchInputFocused := true,
               searchInputPrompt := "Search WorkflowId: " }
    else m
  let m := if keyMatches key keysSearchExecutionStatus then
      { m with searchMode := "ExecutionStatus",
               searchInputPrompt := "Search WorkflowStatus: ", searchInputFocused := true }
    else m
  m

/-- `m.activeSearchParams[mode] = append(m.activeSearchParams[mode], v)`:
appending to a nil map value starts from the empty list. -/
def appendSearchParam (params : List (String × List String)) (k v : String) :
    List (String × List String) :=
  updStr params k ((lookupStr params k).getD [] ++ [v])

/-- `handleSearchUpdate` (`src/main.go`, lines 1435-1465).  The bubbles
textinput is external: a character keypress is modelled as appending the
key to the input value, and the batched `getPossibleSearchOptionsCmd` as
the `searchOptions` effect.  `titleCase` stands for the external
`cases.Title(language.English)` caser applied to status searches. -/
def handleSearchUpdate (titleCase : String → String) (m : model) (key : String) :
    model × Cmd :=
  if m.searchInputFocused ∧ key = "enter" then
    let value := if m.searchMode = "ExecutionStatus"
      then titleCase m.searchInputValue else m.searchInputValue
    let m := { m with
      activeSearchParams := appendSearchParam m.activeSearchParams m.searchMode value,
      searchInputFocused := false, searchInputValue := "", searchMode := "" }
    let m := clearListState m
    (m, .refetchWorkflows (refetchWorkflowsRequest m))
  else if key = "esc" then
    ({ m with searchInputFocused := false, searchMode := "" }, .none)
  else if key = "ctrl+c" then
    ({ m with searchInputFocused := false, searchMode := "" }, .none)
  else if m.searchInputFocused then
    ({ m with searchInputValue := m.searchInputValue ++ key }, .searchOptions)
  else
    (m, .none)

/-- `UpdateFocusedModeState` (`src/unnamed/part_003`, lines 67-101).
`none` models the panics: reading the top of an empty stack, and the
`events[1]` / `slice[cursor]` indexing inside the drill-into-child branch
(via `focusChildWorkflowKey`). -/
def updateFocusedModeState (m : model) (key : String) : Option (model × Cmd) :=
  match m.compactedHistoryStack.getLast? with
  | Option.none => none
  | some top =>
      if keyMatches key focusedKeysFocusChildWorkflow then
        match focusChildWorkflowKey top.compactHistory m.focusedCursor with
        | Option.none => none
        | some .unchanged => some (m, .none)
        | some (.push wid rid) => some (m, .focusWorkflow wid rid)
      else if keyMatches key focusedKeysUp then
        some ((if m.focusedCursor > 0 then { m with focusedCursor := m.focusedCursor - 1 }
               else m), .none)
      else if keyMatches key focusedKeysDown then
        some ((if m.focusedCursor < top.compactHistory.length - 1
               then { m with focusedCursor := m.focusedCursor + 1 } else m), .none)
      else if keyMatches key focusedKeysBack then
        some ({ m with compactedHistoryStack := m.compactedHistoryStack.dropLast,
                       focusedCursor := 0 }, .none)
      else if keyMatches key focusedKeysExit then
        some (m, .quit)
      else
        some (m, .none)

/-- The `tea.KeyMsg` branch of `Update` (`src/main.go`, lines 2095-2189),
with the guard order of the Go `switch` preserved.  `none` models a panic
(reachable only through the focused-mode dispatch). -/
def applyKeyMsg (titleCase : String → String) (m : model) (key : String) :
    Option (model × Cmd) :=
  if m.confirmationFlowState.state = .AWAITING_CONFIRMATION ∧ key = "y" then
    let st := { m.confirmationFlowState with state := .EXECUTING_ACTION }
    some ({ m with confirmationFlowState := st }, .runConfirmedAction st)
  else if m.confirmationFlowState.state = .AWAITING_CONFIRMATION ∧ key = "n" then
    some ({ m with confirmationFlowState :=
      { m.confirmationFlowState with state := .NO_FLOW_RUNNING } }, .none)
  else if m.searchInputFocused then
    some (handleSearchUpdate titleCase m key)
  else
    let m := handleSearchModeSelect m key
    if keyMatches key keysExit then
      some (m, .quit)
    else if keyMatches key keysToggleParentWorkflowMode then
      let m := { m with parentWorkflowMode := !m.parentWorkflowMode }
      some (m, .refetchWorkflows (refetchWorkflowsRequest m))
    else if keyMatches key keysRestartWorkflow then
      if m.cursor < m.workflows.length then
        match m.workflows[m.cursor]? with
        | some w => some (m, restartWorkflowCmd w.workflow.workflowId w.workflow.runId)
        | Option.none => some (m, .none)
      else some (m, .none)
    else if keyMatches key keysTerminateWorkflow then
      if m.cursor < m.workflows.length then
        match m.workflows[m.cursor]? with
        | some w => some (m, terminateWorkflowCmd w.workflow.workflowId w.workflow.runId)
        | Option.none => some (m, .none)
      else some (m, .none)
    else if keyMatches key keysOpenWorkflowInWeb then
      if m.cursor < m.workflows.length then
        match m.workflows[m.cursor]? with
        | some w => some (m, .openBrowser w.workflow.workflowId w.workflow.runId)
        | Option.none => some (m, .none)
      else some (m, .none)
    else if keyMatches key keysHelp then
      some ({ m with helpShowAll := !m.helpShowAll }, .none)
    else if keyMatches key keysNextPage then
      let m := { m with page := m.page + 1 }
      some (m, .refetchWorkflows (refetchWorkflowsRequest m))
    else if keyMatches key keysPrevPage then
      let m := if m.page > 0 then { m with page := m.page - 1 } else m
      some (m, .refetchWorkflows (refetchWorkflowsRequest m))
    else if keyMatches key keysClearSearch then
      let m := { m with activeSearchParams := [], cursor := 0, page := 0 }
      some (m, .refetchWorkflows (refetchWorkflowsRequest m))
    else if keyMatches key keysRefetchWorkflows then
      some (m, .refetchWorkflows (refetchWorkflowsRequest m))
    else if m.compactedHistoryStack.length > 0 then
      updateFocusedModeState m key
    else if keyMatches key keysFocusWorkflow then
      if m.cursor < m.workflows.length then
        match m.workflows[m.cursor]? with
        | some w => some (m, .focusWorkflow w.workflow.workflowId w.workflow.runId)
        | Option.none => some (m, .none)
      else some (m, .none)
    else if keyMatches key keysUp then
      some ((if m.cursor > 0 then { m with cursor := m.cursor - 1 } else m), .none)
    else if keyMatches key keysDown then
      some ((if m.cursor < m.workflows.length - 1 then { m with cursor := m.cursor + 1 }
             else m), .none)
    else if keyMatches key keysSelect then
      some ((if m.cursor < m.workflows.length
             then { m with selected := updNat m.selected m.cursor true } else m), .none)
    else
      some (m, .none)

/-! ## Concrete sample inputs, used to evaluate the model at specific points -/

/-- A concrete stand-in for the abstract JSON renderer when evaluating the
model on closed inputs. -/
def idPretty : String → String := fun s => s

def signaledEvent : HistoryEvent :=
  { eventId := 1, eventType := .workflowExecutionSignaled, signalName := "ping" }

def signaledEventTwo : HistoryEvent :=
  { eventId := 2, eventType := .workflowExecutionSignaled, signalName := "pong" }

/-- The record the compaction builds for `signaledEvent`. -/
def signaledRecordItem : compactHistoryListItem :=
  { events := [signaledEvent], icon := "🛜",
    actionType := "WorkflowExecutionSignaled", rowContent := "ping" }

def workflowTaskEvent : HistoryEvent :=
  { eventId := 4, eventType := .workflowTaskScheduled }

/-- An `ActivityTaskStarted` continuation whose back-reference (scheduled
event 5) has no prior opening record. -/
def orphanStartedEvent : HistoryEvent :=
  { eventId := 2, eventType := .activityTaskStarted, scheduledEventId := 5 }

def childInitiatedEvent : HistoryEvent :=
  { eventId := 1, eventType := .startChildWorkflowExecutionInitiated,
    childWorkflowTypeName := "Child" }

def childStartedEvent : HistoryEvent :=
  { eventId := 2, eventType := .childWorkflowExecutionStarted, initiatedEventId := 1,
    childWorkflowId := "child-wf", childRunId := "child-run" }

def signaledEventThree : HistoryEvent :=
  { eventId := 3, eventType := .workflowExecutionSignaled, signalName := "late" }

/-- A compacted frame holding exactly two singleton records (two signal
events): enough records to pass the `len(currentHistorySlice) < 2` guard,
while each record has a single member event. -/
def twoSingletonHistory : compactedHistory :=
  (createCompactHistory idPretty [signaledEvent, signaledEventTwo] []).getD []

/-- A compacted frame with a child-execution record (initiated + started)
and one extra singleton record. -/
def childDrillHistory : compactedHistory :=
  (createCompactHistory idPretty
    [childInitiatedEvent, childStartedEvent, signaledEventThree] []).getD []

def sampleRowA : workflowTableListItem :=
  { workflow := { workflowId := "wf-a" }, attempts := 1 }

def sampleRowB : workflowTableListItem :=
  { workflow := { workflowId := "wf-b" } }

def sampleFetchedA : WorkflowExecutionInfo :=
  { workflowId := "wf-a", status := "Completed", closeTime := some 7 }

/-- A state reached by pressing next-page again before the page-1 fetch
resolves: the user is on page 1 and only the tokens for pages 0 and 1 are
cached, so the token for page 2 is absent. -/
def missingTokenModel : model :=
  { page := 1, nextPageTokenCache := [(0, []), (1, [7])] }

/-- The root list view right after startup, with a single row. -/
def idleRowModel : model :=
  { workflows := [sampleRowA] }

/-- A state awaiting confirmation of a terminate on `wf-1`. -/
def awaitingModel : model :=
  { confirmationFlowState :=
      { state := .AWAITING_CONFIRMATION,
        commandThatRunsOnConfirmation := .terminateAction "wf-1" "r1" } }

/-- The empty root list view. -/
def initialListModel : model := {}

/-! # Theorems -/

theorem append_ne_empty (s t : String) (h : s ≠ "") : s ++ t ≠ "" := by
  intro he
  apply h
  have hl : s.length + t.length = 0 := by
    have h2 := congrArg String.length he
    simpa [String.length_append] using h2
  have hs : s.length = 0 := by omega
  cases s with
  | mk data =>
    cases data with
    | nil => rfl
    | cons c cs => simp [String.length] at hs

theorem queryGroupString_ne_empty (f : String) (vs : List String) :
    queryGroupString f vs ≠ "" := by
  unfold queryGroupString
  exact append_ne_empty "(" _ (by decide)

theorem andJoin_glue (a g : String) (gs : List String) :
    andJoin ((a ++ " AND " ++ g) :: gs) = a ++ " AND " ++ andJoin (g :: gs) := by
  cases gs with
  | nil => simp [andJoin]
  | cons h t => simp [andJoin, String.append_assoc]

theorem queryLoop_eq_andJoin (params : List (String × List String)) :
    ∀ qs : String,
      queryLoop qs params =
        if qs = "" then andJoin (queryGroups params)
        else andJoin (qs :: queryGroups params) := by
  induction params with
  | nil =>
      intro qs
      by_cases hqs : qs = "" <;> simp [queryLoop, queryGroups, andJoin, hqs]
  | cons p rest ih =>
      intro qs
      obtain ⟨f, vs⟩ := p
      by_cases hvs : vs.isEmpty
      · have hgroups : queryGroups ((f, vs) :: rest) = queryGroups rest := by
          simp [queryGroups, List.filter, hvs]
        simp only [queryLoop, hvs, if_true, hgroups]
        exact ih qs
      · have hgroups : queryGroups ((f, vs) :: rest)
            = queryGroupString f vs :: queryGroups rest := by
          simp [queryGroups, List.filter, hvs]
        by_cases hqs : qs = ""
        · subst hqs
          have hstep : queryLoop "" ((f, vs) :: rest)
              = queryLoop (queryGroupString f vs) rest := by
            simp [queryLoop, hvs]
          rw [hstep, ih (queryGroupString f vs),
            if_neg (queryGroupString_ne_empty f vs), if_pos rfl, hgroups]
        · have hstep : queryLoop qs ((f, vs) :: rest)
              = queryLoop ((qs ++ " AND ") ++ queryGroupString f vs) rest := by
            simp [queryLoop, hvs, hqs]
          rw [hstep, ih ((qs ++ " AND ") ++ queryGroupString f vs),
            if_neg (append_ne_empty _ _ (append_ne_empty _ _ hqs)),
            if_neg hqs, hgroups]
          cases queryGroups rest with
          | nil => simp [andJoin, String.append_assoc]
          | cons a b => simp [andJoin, String.append_assoc]

/-- **C4.** For every filter state (in any map-iteration order),
`constructQueryString` emits a parenthesized OR of equality clauses per
filter field with at least one accepted value, joins the non-empty field
groups with `" AND "`, prepends the fixed parents-only clause when parent
mode is active, and returns the empty (permissive) expression when there is
nothing to filter; in particular `{WorkflowType: ["Foo"]}` builds
`(WorkflowType = 'Foo')` and `{WorkflowId: ["a","b"]}` builds
`(WorkflowId = 'a' OR WorkflowId = 'b')`. -/
theorem constructQueryString_builds_spec_expression :
    (∀ (pm : Bool) (params : List (String × List String)),
        constructQueryString pm params = queryStringSpec pm params)
    ∧ constructQueryString false [("WorkflowType", ["Foo"])] = "(WorkflowType = \x27Foo\x27)"
    ∧ constructQueryString false [("WorkflowId", ["a", "b"])]
        = "(WorkflowId = \x27a\x27 OR WorkflowId = \x27b\x27)"
    ∧ constructQueryString false
        [("WorkflowType", []), ("WorkflowId", []), ("ExecutionStatus", [])] = ""
    ∧ constructQueryString true [("WorkflowId", ["a"])]
        = "ParentWorkflowId is null AND (WorkflowId = \x27a\x27)"
    ∧ constructQueryString true [] = "ParentWorkflowId is null" := by
  refine ⟨fun pm params => ?_, by decide, by decide, by decide, by decide, by decide⟩
  cases pm with
  | false =>
      rw [show constructQueryString false params = queryLoop "" params from rfl,
        queryLoop_eq_andJoin, if_pos rfl]
      rfl
  | true =>
      rw [show constructQueryString true params
            = queryLoop "ParentWorkflowId is null" params from rfl,
        queryLoop_eq_andJoin, if_neg (by decide)]
      rfl

theorem mem_updInt {α : Type} {l : List (Int × α)} {k : Int} {v : α} {p : Int × α}
    (hp : p ∈ updInt l k v) : p = (k, v) ∨ p ∈ l := by
  unfold updInt at hp
  rcases List.mem_append.mp hp with h | h
  · exact Or.inr (List.mem_of_mem_filter h)
  · exact Or.inl (List.mem_singleton.mp h)

theorem lookupInt_mem {α : Type} {l : List (Int × α)} {k : Int} {v : α}
    (h : lookupInt l k = some v) : (k, v) ∈ l := by
  unfold lookupInt at h
  cases hf : l.find? (fun p => p.1 == k) with
  | none => rw [hf] at h; simp at h
  | some p =>
      rw [hf] at h
      have hmem := List.mem_of_find?_eq_some hf
      have hpred := List.find?_some hf
      cases p with
      | mk k2 v2 =>
          simp at h
          simp at hpred
          subst hpred
          subst h
          exact hmem

theorem goodHistory_updInt {l : compactedHistory} {k : Int} {it : compactHistoryListItem}
    (hl : GoodHistory l) (hit : ∀ e ∈ it.events, nonBookkeeping e) :
    GoodHistory (updInt l k it) := by
  intro p hp
  rcases mem_updInt hp with rfl | hp2
  · exact hit
  · exact hl p hp2

theorem goodHistory_lookup {l : compactedHistory} {k : Int} {it : compactHistoryListItem}
    (hl : GoodHistory l) (h : lookupInt l k = some it) :
    ∀ e ∈ it.events, nonBookkeeping e :=
  hl (k, it) (lookupInt_mem h)

theorem goodHistory_open {acc : compactedHistory} {k : Int} {e : HistoryEvent}
    {it2 : compactHistoryListItem}
    (hacc : GoodHistory acc) (hev : it2.events = [e]) (he : nonBookkeeping e) :
    GoodHistory (updInt acc k it2) := by
  refine goodHistory_updInt hacc ?_
  intro e2 he2
  rw [hev] at he2
  rw [List.mem_singleton.mp he2]
  exact he

theorem goodHistory_cont {acc : compactedHistory} {k : Int} {e : HistoryEvent}
    {it it2 : compactHistoryListItem}
    (hacc : GoodHistory acc) (hlook : lookupInt acc k = some it)
    (hev : it2.events = it.events ++ [e]) (he : nonBookkeeping e) :
    GoodHistory (updInt acc k it2) := by
  refine goodHistory_updInt hacc ?_
  intro e2 he2
  rw [hev] at he2
  rcases List.mem_append.mp he2 with h | h
  · exact goodHistory_lookup hacc hlook e2 h
  · rw [List.mem_singleton.mp h]
    exact he

theorem goodHistory_keep {acc : compactedHistory} {k : Int}
    {it it2 : compactHistoryListItem}
    (hacc : GoodHistory acc) (hlook : lookupInt acc k = some it)
    (hev : it2.events = it.events) :
    GoodHistory (updInt acc k it2) := by
  refine goodHistory_updInt hacc ?_
  intro e2 he2
  rw [hev] at he2
  exact goodHistory_lookup hacc hlook e2 he2

theorem compactStep_preserves_good
    {pretty : String → String} {pend : List PendingActivityInfo}
    {acc : compactedHistory} {e : HistoryEvent} {acc2 : compactedHistory}
    (hstep : compactStep pretty pend acc e = some acc2) (hacc : GoodHistory acc) :
    GoodHistory acc2 := by
  obtain ⟨eid, ty, aid, atn, inp, outp, sid, stid, iid, tid, ctn, sn, cwid, crid⟩ := e
  cases ty
  case activityTaskScheduled =>
      simp only [compactStep] at hstep
      split at hstep
      · exact Option.noConfusion hstep
      · injection hstep with h2
        subst h2
        exact goodHistory_open hacc rfl (by decide : strContainsSub "ActivityTaskScheduled" "WorkflowTask" = false)
      · injection hstep with h2
        subst h2
        exact goodHistory_open hacc rfl (by decide : strContainsSub "ActivityTaskScheduled" "WorkflowTask" = false)
  case activityTaskStarted =>
      simp only [compactStep] at hstep
      split at hstep
      · exact Option.noConfusion hstep
      · rename_i it hlook
        injection hstep with h2
        subst h2
        exact goodHistory_cont hacc hlook rfl (by decide : strContainsSub "ActivityTaskStarted" "WorkflowTask" = false)
  case activityTaskCompleted =>
      simp only [compactStep] at hstep
      split at hstep
      · exact Option.noConfusion hstep
      · rename_i it hlook
        split at hstep
        · rename_i d tail
          injection hstep with h2
          subst h2
          exact goodHistory_cont hacc hlook rfl (by decide : strContainsSub "ActivityTaskCompleted" "WorkflowTask" = false)
        · exact Option.noConfusion hstep
  case activityTaskFailed =>
      simp only [compactStep] at hstep
      split at hstep
      · exact Option.noConfusion hstep
      · rename_i it hlook
        injection hstep with h2
        subst h2
        exact goodHistory_cont hacc hlook rfl (by decide : strContainsSub "ActivityTaskFailed" "WorkflowTask" = false)
  case activityTaskTimedOut =>
      simp only [compactStep] at hstep
      split at hstep
      · exact Option.noConfusion hstep
      · rename_i it hlook
        injection hstep with h2
        subst h2
        exact goodHistory_cont hacc hlook rfl (by decide : strContainsSub "ActivityTaskTimedOut" "WorkflowTask" = false)
  case activityTaskCancelRequested =>
      simp only [compactStep] at hstep
      split at hstep
      · exact Option.noConfusion hstep
      · rename_i it hlook
        injection hstep with h2
        subst h2
        exact goodHistory_cont hacc hlook rfl (by decide : strContainsSub "ActivityTaskCancelRequested" "WorkflowTask" = false)
  case activityTaskCanceled =>
      simp only [compactStep] at hstep
      split at hstep
      · exact Option.noConfusion hstep
      · rename_i it hlook
        injection hstep with h2
        subst h2
        exact goodHistory_cont hacc hlook rfl (by decide : strContainsSub "ActivityTaskCanceled" "WorkflowTask" = false)
  case timerStarted =>
      simp only [compactStep] at hstep
      injection hstep with h2
      subst h2
      exact goodHistory_open hacc rfl (by decide : strContainsSub "TimerStarted" "WorkflowTask" = false)
  case timerFired =>
      simp only [compactStep] at hstep
      split at hstep
      · exact Option.noConfusion hstep
      · rename_i it hlook
        injection hstep with h2
        subst h2
        exact goodHistory_cont hacc hlook rfl (by decide : strContainsSub "TimerFired" "WorkflowTask" = false)
  case timerCanceled =>
      simp only [compactStep] at hstep
      split at hstep
      · exact Option.noConfusion hstep
      · rename_i it hlook
        injection hstep with h2
        subst h2
        exact goodHistory_cont hacc hlook rfl (by decide : strContainsSub "TimerCanceled" "WorkflowTask" = false)
  case startChildWorkflowExecutionInitiated =>
      simp only [compactStep] at hstep
      split at hstep
      · exact Option.noConfusion hstep
      · injection hstep with h2
        subst h2
        exact goodHistory_open hacc rfl (by decide : strContainsSub "StartChildWorkflowExecutionInitiated" "WorkflowTask" = false)
      · injection hstep with h2
        subst h2
        exact goodHistory_open hacc rfl (by decide : strContainsSub "StartChildWorkflowExecutionInitiated" "WorkflowTask" = false)
  case childWorkflowExecutionStarted =>
      simp only [compactStep] at hstep
      split at hstep
      · exact Option.noConfusion hstep
      · rename_i it hlook
        injection hstep with h2
        subst h2
        exact goodHistory_cont hacc hlook rfl (by decide : strContainsSub "ChildWorkflowExecutionStarted" "WorkflowTask" = false)
  case childWorkflowExecutionCompleted =>
      simp only [compactStep] at hstep
      split at hstep
      · exact Option.noConfusion hstep
      · rename_i it hlook
        split at hstep
        · exact Option.noConfusion hstep
        · injection hstep with h2
          subst h2
          exact goodHistory_cont hacc hlook rfl (by decide : strContainsSub "ChildWorkflowExecutionCompleted" "WorkflowTask" = false)
        · injection hstep with h2
          subst h2
          exact goodHistory_cont hacc hlook rfl (by decide : strContainsSub "ChildWorkflowExecutionCompleted" "WorkflowTask" = false)
  case childWorkflowExecutionFailed =>
      simp only [compactStep] at hstep
      split at hstep
      · exact Option.noConfusion hstep
      · rename_i it hlook
        injection hstep with h2
        subst h2
        exact goodHistory_keep hacc hlook rfl
  case workflowExecutionStarted =>
      simp only [compactStep] at hstep
      split at hstep
      · exact Option.noConfusion hstep
      · injection hstep with h2
        subst h2
        exact goodHistory_open hacc rfl (by decide : strContainsSub "WorkflowExecutionStarted" "WorkflowTask" = false)
      · injection hstep with h2
        subst h2
        exact goodHistory_open hacc rfl (by decide : strContainsSub "WorkflowExecutionStarted" "WorkflowTask" = false)
  case workflowExecutionCompleted =>
      simp only [compactStep] at hstep
      split at hstep
      · exact Option.noConfusion hstep
      · injection hstep with h2
        subst h2
        exact goodHistory_open hacc rfl (by decide : strContainsSub "WorkflowExecutionCompleted" "WorkflowTask" = false)
      · injection hstep with h2
        subst h2
        exact goodHistory_open hacc rfl (by decide : strContainsSub "WorkflowExecutionCompleted" "WorkflowTask" = false)
  case workflowExecutionSignaled =>
      simp only [compactStep] at hstep
      injection hstep with h2
      subst h2
      exact goodHistory_open hacc rfl (by decide : strContainsSub "WorkflowExecutionSignaled" "WorkflowTask" = false)
  case workflowTaskScheduled =>
      simp only [compactStep] at hstep
      split at hstep
      · rename_i hcond
        rw [Bool.and_eq_true] at hcond
        exact absurd hcond.2 (by decide)
      · injection hstep with h2
        subst h2
        exact hacc
  case workflowTaskStarted =>
      simp only [compactStep] at hstep
      split at hstep
      · rename_i hcond
        rw [Bool.and_eq_true] at hcond
        exact absurd hcond.2 (by decide)
      · injection hstep with h2
        subst h2
        exact hacc
  case workflowTaskCompleted =>
      simp only [compactStep] at hstep
      split at hstep
      · rename_i hcond
        rw [Bool.and_eq_true] at hcond
        exact absurd hcond.2 (by decide)
      · injection hstep with h2
        subst h2
        exact hacc
  case workflowTaskTimedOut =>
      simp only [compactStep] at hstep
      split at hstep
      · rename_i hcond
        rw [Bool.and_eq_true] at hcond
        exact absurd hcond.2 (by decide)
      · injection hstep with h2
        subst h2
        exact hacc
  case workflowTaskFailed =>
      simp only [compactStep] at hstep
      split at hstep
      · rename_i hcond
        rw [Bool.and_eq_true] at hcond
        exact absurd hcond.2 (by decide)
      · injection hstep with h2
        subst h2
        exact hacc
  case otherEvent s =>
      simp only [compactStep] at hstep
      split at hstep
      · rename_i hcond
        rw [Bool.and_eq_true] at hcond
        injection hstep with h2
        subst h2
        refine goodHistory_open hacc rfl ?_
        have h3 := hcond.2
        unfold nonBookkeeping
        simpa [eventTypeString] using h3
      · injection hstep with h2
        subst h2
        exact hacc

theorem compactLoop_preserves_good
    {pretty : String → String} {pend : List PendingActivityInfo} :
    ∀ (hist : List HistoryEvent) (acc out : compactedHistory),
      compactLoop pretty pend acc hist = some out → GoodHistory acc → GoodHistory out := by
  intro hist
  induction hist with
  | nil =>
      intro acc out h hacc
      unfold compactLoop at h
      injection h with h2
      subst h2
      exact hacc
  | cons e rest ih =>
      intro acc out h hacc
      unfold compactLoop at h
      cases hstep : compactStep pretty pend acc e with
      | none => rw [hstep] at h; exact Option.noConfusion h
      | some acc2 =>
          rw [hstep] at h
          exact ih acc2 out h (compactStep_preserves_good hstep hacc)

/-- **C1.** For every input event sequence and pending-activity snapshot, no
event whose type belongs to the internal workflow-task bookkeeping family
(type string containing `"WorkflowTask"`) appears in the member event list
of any record of the map returned by `createCompactHistory`. -/
theorem createCompactHistory_drops_workflowTask_events
    (pretty : String → String) (historyList : List HistoryEvent)
    (pendingActivities : List PendingActivityInfo) (out : compactedHistory)
    (hout : createCompactHistory pretty historyList pendingActivities = some out) :
    ∀ rec ∈ out, ∀ e ∈ (Prod.snd rec).events,
      strContainsSub (eventTypeString e.eventType) "WorkflowTask" = false := by
  have hnil : GoodHistory [] := by
    intro p hp
    exact absurd hp (List.not_mem_nil p)
  exact compactLoop_preserves_good historyList [] out hout hnil

/-- Witness for C1: a run containing a `WorkflowTaskScheduled` event
returns only the signal record, whose single member event is outside the
bookkeeping family. -/
theorem createCompactHistory_drops_workflowTask_events_witness :
    strContainsSub (eventTypeString signaledEvent.eventType) "WorkflowTask" = false :=
  createCompactHistory_drops_workflowTask_events idPretty
    [workflowTaskEvent, signaledEvent] [] [(1, signaledRecordItem)] (by decide)
    (1, signaledRecordItem) (by decide) signaledEvent (by decide)

/-- **C2.** `createCompactHistory` is deterministic: identical event lists
and pending-activity lists give identical maps — the same lookup result at
every key, and for records present at a key, identical icon, action type,
row label, content blocks and member events. -/
theorem createCompactHistory_deterministic
    (pretty : String → String)
    (h1 h2 : List HistoryEvent) (p1 p2 : List PendingActivityInfo)
    (hh : h1 = h2) (hp : p1 = p2) :
    createCompactHistory pretty h1 p1 = createCompactHistory pretty h2 p2 ∧
    (∀ k : Int,
      (createCompactHistory pretty h1 p1).map (fun m => lookupInt m k)
        = (createCompactHistory pretty h2 p2).map (fun m => lookupInt m k)) ∧
    (∀ (k : Int) (m1 m2 : compactedHistory) (it1 it2 : compactHistoryListItem),
      createCompactHistory pretty h1 p1 = some m1 →
      createCompactHistory pretty h2 p2 = some m2 →
      lookupInt m1 k = some it1 → lookupInt m2 k = some it2 →
      it1.icon = it2.icon ∧ it1.actionType = it2.actionType ∧
      it1.rowContent = it2.rowContent ∧ it1.eventsContent = it2.eventsContent ∧
      it1.events = it2.events) := by
  subst hh
  subst hp
  refine ⟨rfl, fun k => rfl, ?_⟩
  intro k m1 m2 it1 it2 hm1 hm2 hit1 hit2
  rw [hm1] at hm2
  injection hm2 with hm
  subst hm
  rw [hit1] at hit2
  injection hit2 with hit
  subst hit
  exact ⟨rfl, rfl, rfl, rfl, rfl⟩

/-- Witness for C2 at a concrete input, with the per-key conjunct
instantiated at key 1. -/
theorem createCompactHistory_deterministic_witness :
    createCompactHistory idPretty [signaledEvent] []
        = createCompactHistory idPretty [signaledEvent] [] ∧
    (createCompactHistory idPretty [signaledEvent] []).map (fun m => lookupInt m 1)
        = (createCompactHistory idPretty [signaledEvent] []).map (fun m => lookupInt m 1) :=
  ⟨(createCompactHistory_deterministic idPretty [signaledEvent] [signaledEvent] [] [] rfl rfl).1,
   (createCompactHistory_deterministic idPretty [signaledEvent] [signaledEvent] [] [] rfl rfl).2.1 1⟩

/-- **C3** (code bug).  A continuation event whose back-reference key has no
prior opening record makes the Go pass dereference the nil map entry and
panic (modelled `none`): the pass neither skips the orphaned event nor
returns an identifiable error, for any of the continuation families. -/
theorem createCompactHistory_orphan_continuation_faults :
    createCompactHistory idPretty [orphanStartedEvent] [] = none ∧
    createCompactHistory idPretty
      [{ eventId := 3, eventType := .timerFired, startedEventId := 9 }] [] = none ∧
    createCompactHistory idPretty
      [{ eventId := 3, eventType := .childWorkflowExecutionStarted,
         initiatedEventId := 9 }] [] = none := by
  exact ⟨rfl, rfl, rfl⟩

/-- **C9** (code bug).  The focused-mode drill-into-child key checks the
number of records in the slice, not the number of member events of the
record under the cursor: with two singleton records it reads `events[1]`
out of range and panics (`none`) instead of leaving the state unchanged.
On a genuine child record that has received its started continuation it
does push the child identity. -/
theorem focusChildWorkflowKey_faults_on_singleton_record :
    focusChildWorkflowKey twoSingletonHistory 0 = none ∧
    focusChildWorkflowKey childDrillHistory 1
      = some (.push "child-wf" "child-run") ∧
    focusChildWorkflowKey childDrillHistory 0 = none := by
  exact ⟨rfl, rfl, rfl⟩

theorem find?_filter_ne {α : Type} (m : List (String × α)) (k k2 : String) (hne : k2 ≠ k) :
    (m.filter (fun p => p.1 != k)).find? (fun p => p.1 == k2)
      = m.find? (fun p => p.1 == k2) := by
  induction m with
  | nil => rfl
  | cons p rest ih =>
      rw [List.filter_cons]
      by_cases hp2 : p.1 = k2
      · have hpkb : (p.1 == k) = false := by
          rw [hp2]
          exact beq_eq_false_iff_ne.mpr hne
        have hpk : (p.1 != k) = true := by simp [bne, hpkb]
        have hb : (p.1 == k2) = true := by simp [hp2]
        simp [hpk, List.find?, hb]
      · have hb : (p.1 == k2) = false := beq_eq_false_iff_ne.mpr hp2
        by_cases hpk : p.1 = k
        · have h1 : (p.1 != k) = false := by simp [bne, hpk]
          simp [h1, List.find?, hb, ih]
        · have h1 : (p.1 != k) = true := by
            simp [bne]
            exact hpk
          simp [h1, List.find?, hb, ih]

theorem lookupStr_updStr {α : Type} (m : List (String × α)) (k k2 : String) (v : α) :
    lookupStr (updStr m k v) k2 = if k2 = k then some v else lookupStr m k2 := by
  unfold lookupStr updStr
  rw [List.find?_append]
  by_cases h : k2 = k
  · subst h
    have hnone : (m.filter (fun p => p.1 != k2)).find? (fun p => p.1 == k2) = none := by
      rw [List.find?_eq_none]
      intro x hx
      have := List.of_mem_filter hx
      simpa using this
    simp [hnone, List.find?]
  · have hkk : (k == k2) = false := beq_eq_false_iff_ne.mpr (fun hc => h hc.symm)
    have hone : ([(k, v)] : List (String × α)).find? (fun p => p.1 == k2) = none := by
      simp [List.find?, hkk]
    rw [find?_filter_ne m k k2 h, hone]
    simp [h]

theorem buildVisibleWorkflowsMap_keyConsistent
    (fetched : List WorkflowExecutionInfo) (current : List workflowTableListItem) :
    KeyConsistent (buildVisibleWorkflowsMap fetched current) := by
  unfold buildVisibleWorkflowsMap
  have aux : ∀ (fs : List WorkflowExecutionInfo) (acc : List (String × WorkflowExecutionInfo)),
      KeyConsistent acc →
      KeyConsistent (fs.foldl (fun acc u =>
        if current.any (fun w => w.workflow.workflowId == u.workflowId) then
          updStr acc u.workflowId u
        else acc) acc) := by
    intro fs
    induction fs with
    | nil => intro acc hacc; exact hacc
    | cons u rest ih =>
        intro acc hacc
        simp only [List.foldl]
        by_cases hc : current.any (fun w => w.workflow.workflowId == u.workflowId)
        · rw [if_pos hc]
          apply ih
          intro k2 v2 hl
          rw [lookupStr_updStr] at hl
          by_cases hk : k2 = u.workflowId
          · rw [if_pos hk] at hl
            injection hl with h2
            subst h2
            exact hk.symm
          · rw [if_neg hk] at hl
            exact hacc k2 v2 hl
        · rw [if_neg hc]
          exact ih acc hacc
  refine aux fetched [] ?_
  intro k v hl
  simp [lookupStr, List.find?] at hl

theorem mergeRowWorkflow_preserves_id
    {M : List (String × WorkflowExecutionInfo)} (hM : KeyConsistent M)
    (w : workflowTableListItem) :
    (mergeRowWorkflow M w).workflow.workflowId = w.workflow.workflowId := by
  unfold mergeRowWorkflow
  cases hl : lookupStr M w.workflow.workflowId with
  | none => rfl
  | some v => exact hM _ _ hl

theorem mergeRowWorkflow_idem
    {M : List (String × WorkflowExecutionInfo)} (hM : KeyConsistent M)
    (w : workflowTableListItem) :
    mergeRowWorkflow M (mergeRowWorkflow M w) = mergeRowWorkflow M w := by
  cases hl : lookupStr M w.workflow.workflowId with
  | none =>
      have h1 : mergeRowWorkflow M w = w := by
        unfold mergeRowWorkflow
        rw [hl]
      rw [h1, h1]
  | some v =>
      have hv : v.workflowId = w.workflow.workflowId := hM _ _ hl
      have h1 : mergeRowWorkflow M w = { w with workflow := v } := by
        unfold mergeRowWorkflow
        rw [hl]
      rw [h1]
      unfold mergeRowWorkflow
      have h2 : ({ w with workflow := v } : workflowTableListItem).workflow.workflowId
          = w.workflow.workflowId := hv
      rw [h2, hl]

theorem mergeRowAttempts_idem
    (f : List (String × Int)) (w : workflowTableListItem) :
    mergeRowAttempts f (mergeRowAttempts f w) = mergeRowAttempts f w := by
  unfold mergeRowAttempts
  cases hl : lookupStr f w.workflow.workflowId with
  | none => rw [hl]
  | some a =>
      have : ({ w with attempts := a } : workflowTableListItem).workflow.workflowId
          = w.workflow.workflowId := rfl
      rw [this, hl]

/-- **C6.** -/
theorem backgroundSync_merge_idempotent :
    (∀ (fetched : List WorkflowExecutionInfo) (current : List workflowTableListItem),
        KeyConsistent (buildVisibleWorkflowsMap fetched current)) ∧
    (∀ (workflows : List workflowTableListItem)
        (M : List (String × WorkflowExecutionInfo)), KeyConsistent M →
        applyUpdateVisibleWorkflows (applyUpdateVisibleWorkflows workflows M) M
          = applyUpdateVisibleWorkflows workflows M) ∧
    (∀ (workflows : List workflowTableListItem) (f : List (String × Int)),
        applyUpdateVisibleWorkflowAttemps (applyUpdateVisibleWorkflowAttemps workflows f) f
          = applyUpdateVisibleWorkflowAttemps workflows f) := by
  refine ⟨buildVisibleWorkflowsMap_keyConsistent, ?_, ?_⟩
  · intro workflows M hM
    unfold applyUpdateVisibleWorkflows
    induction workflows with
    | nil => rfl
    | cons w rest ih =>
        simp only [List.map_cons]
        rw [mergeRowWorkflow_idem hM w]
        have htail := ih
        simp only [List.map_cons] at htail ⊢
        rw [show (List.map (mergeRowWorkflow M) (List.map (mergeRowWorkflow M) rest))
              = List.map (mergeRowWorkflow M) rest from htail]
  · intro workflows f
    unfold applyUpdateVisibleWorkflowAttemps
    induction workflows with
    | nil => rfl
    | cons w rest ih =>
        simp only [List.map_cons]
        rw [mergeRowAttempts_idem f w]
        rw [show (List.map (mergeRowAttempts f) (List.map (mergeRowAttempts f) rest))
              = List.map (mergeRowAttempts f) rest from ih]

/-- **C5.** -/
theorem updateVisibleWorkflows_merge_frame
    (workflows : List workflowTableListItem) (fetched : List WorkflowExecutionInfo) :
    (applyUpdateVisibleWorkflows workflows (buildVisibleWorkflowsMap fetched workflows)).length
        = workflows.length ∧
    (∀ (i : Nat) (w : workflowTableListItem), workflows[i]? = some w →
      ∃ w2 : workflowTableListItem,
        (applyUpdateVisibleWorkflows workflows (buildVisibleWorkflowsMap fetched workflows))[i]?
            = some w2 ∧
        w2.workflow.workflowId = w.workflow.workflowId ∧
        w2.attempts = w.attempts ∧
        w2.history = w.history ∧
        w2.pendingActivities = w.pendingActivities ∧
        (lookupStr (buildVisibleWorkflowsMap fetched workflows) w.workflow.workflowId = none →
          w2 = w) ∧
        (∀ v, lookupStr (buildVisibleWorkflowsMap fetched workflows) w.workflow.workflowId
            = some v → w2 = { w with workflow := v })) := by
  have hM := buildVisibleWorkflowsMap_keyConsistent fetched workflows
  constructor
  · exact List.length_map _ _
  · intro i w hw
    refine ⟨mergeRowWorkflow (buildVisibleWorkflowsMap fetched workflows) w,
      ?_, mergeRowWorkflow_preserves_id hM w, ?_, ?_, ?_, ?_, ?_⟩
    · unfold applyUpdateVisibleWorkflows
      rw [List.getElem?_map, hw]
      rfl
    · unfold mergeRowWorkflow
      cases hl : lookupStr (buildVisibleWorkflowsMap fetched workflows) w.workflow.workflowId with
      | none => rfl
      | some v => rfl
    · unfold mergeRowWorkflow
      cases hl : lookupStr (buildVisibleWorkflowsMap fetched workflows) w.workflow.workflowId with
      | none => rfl
      | some v => rfl
    · unfold mergeRowWorkflow
      cases hl : lookupStr (buildVisibleWorkflowsMap fetched workflows) w.workflow.workflowId with
      | none => rfl
      | some v => rfl
    · intro hnone
      unfold mergeRowWorkflow
      rw [hnone]
    · intro v hv
      unfold mergeRowWorkflow
      rw [hv]

/-- Witness for C5 at a two-row collection: the hypothesis instance and the
length-preservation conclusion at that input. -/
theorem updateVisibleWorkflows_merge_frame_witness :
    ([sampleRowA, sampleRowB] : List workflowTableListItem)[0]? = some sampleRowA ∧
    (applyUpdateVisibleWorkflows [sampleRowA, sampleRowB]
        (buildVisibleWorkflowsMap [sampleFetchedA] [sampleRowA, sampleRowB])).length
      = ([sampleRowA, sampleRowB] : List workflowTableListItem).length :=
  ⟨by decide,
   (updateVisibleWorkflows_merge_frame [sampleRowA, sampleRowB] [sampleFetchedA]).1⟩

/-- Witness for C6 at concrete collections. -/
theorem backgroundSync_merge_idempotent_witness :
    (applyUpdateVisibleWorkflows
        (applyUpdateVisibleWorkflows [sampleRowA, sampleRowB]
          (buildVisibleWorkflowsMap [sampleFetchedA] [sampleRowA, sampleRowB]))
        (buildVisibleWorkflowsMap [sampleFetchedA] [sampleRowA, sampleRowB])
      = applyUpdateVisibleWorkflows [sampleRowA, sampleRowB]
          (buildVisibleWorkflowsMap [sampleFetchedA] [sampleRowA, sampleRowB])) ∧
    (applyUpdateVisibleWorkflowAttemps
        (applyUpdateVisibleWorkflowAttemps [sampleRowA] [("wf-a", 4)]) [("wf-a", 4)]
      = applyUpdateVisibleWorkflowAttemps [sampleRowA] [("wf-a", 4)]) :=
  ⟨backgroundSync_merge_idempotent.2.1 [sampleRowA, sampleRowB]
      (buildVisibleWorkflowsMap [sampleFetchedA] [sampleRowA, sampleRowB])
      (buildVisibleWorkflowsMap_keyConsistent [sampleFetchedA] [sampleRowA, sampleRowB]),
   backgroundSync_merge_idempotent.2.2 [sampleRowA] [("wf-a", 4)]⟩


theorem find?_filter_ne_nat {α : Type} (m : List (Nat × α)) (k k2 : Nat) (hne : k2 ≠ k) :
    (m.filter (fun p => p.1 != k)).find? (fun p => p.1 == k2)
      = m.find? (fun p => p.1 == k2) := by
  induction m with
  | nil => rfl
  | cons p rest ih =>
      rw [List.filter_cons]
      by_cases hp2 : p.1 = k2
      · have hpkb : (p.1 == k) = false := by
          rw [hp2]
          exact beq_eq_false_iff_ne.mpr hne
        have hpk : (p.1 != k) = true := by simp [bne, hpkb]
        have hb : (p.1 == k2) = true := by simp [hp2]
        simp [hpk, List.find?, hb]
      · have hb : (p.1 == k2) = false := beq_eq_false_iff_ne.mpr hp2
        by_cases hpk : p.1 = k
        · have h1 : (p.1 != k) = false := by simp [bne, hpk]
          simp [h1, List.find?, hb, ih]
        · have h1 : (p.1 != k) = true := by
            simp [bne]
            exact hpk
          simp [h1, List.find?, hb, ih]

theorem lookupNat_updNat {α : Type} (m : List (Nat × α)) (k k2 : Nat) (v : α) :
    lookupNat (updNat m k v) k2 = if k2 = k then some v else lookupNat m k2 := by
  unfold lookupNat updNat
  rw [List.find?_append]
  by_cases h : k2 = k
  · subst h
    have hnone : (m.filter (fun p => p.1 != k2)).find? (fun p => p.1 == k2) = none := by
      rw [List.find?_eq_none]
      intro x hx
      have := List.of_mem_filter hx
      simpa using this
    simp [hnone, List.find?]
  · have hkk : (k == k2) = false := beq_eq_false_iff_ne.mpr (fun hc => h hc.symm)
    have hone : ([(k, v)] : List (Nat × α)).find? (fun p => p.1 == k2) = none := by
      simp [List.find?, hkk]
    rw [find?_filter_ne_nat m k k2 h, hone]
    simp [h]

theorem nextPage_increments_and_refetches (titleCase : String → String) (m : model)
    (hfoc : m.searchInputFocused = false) :
    applyKeyMsg titleCase m "]"
      = some ({ m with page := m.page + 1 },
          .refetchWorkflows (refetchWorkflowsRequest { m with page := m.page + 1 })) := by
  unfold applyKeyMsg
  rw [if_neg (fun h => absurd h.2 (by decide)), if_neg (fun h => absurd h.2 (by decide)),
    hfoc]
  simp [handleSearchModeSelect, keyMatches, keysSearchWorkflowType, keysSearchWorkflowId,
    keysSearchExecutionStatus, keysExit, keysToggleParentWorkflowMode, keysRestartWorkflow,
    keysTerminateWorkflow, keysOpenWorkflowInWeb, keysHelp, keysNextPage]
  exact ⟨hfoc, by rw [hfoc]⟩

/-- **C7.** The confirmation flow: from Idle a destructive-action request
(the terminate key on a valid row) emits the confirmation-request command,
whose delivery moves the flow to `AWAITING_CONFIRMATION` with the
destructive closure bound and invokes nothing; from there "n" returns
directly to Idle with no command (the action is never invoked), while "y"
moves to `EXECUTING_ACTION` and emits the wrapped command, which invokes
the bound action exactly once and delivers `ACTION_COMPLETED`; that
delivery shows the completion and schedules the fixed timeout, whose
delivery returns the flow to Idle. -/
theorem confirmationFlow_transition_contract :
    (∀ (tc : String → String) (m : model) (w : workflowTableListItem),
        m.confirmationFlowState.state = .NO_FLOW_RUNNING →
        m.compactedHistoryStack = [] → m.searchInputFocused = false →
        m.cursor < m.workflows.length → m.workflows[m.cursor]? = some w →
        applyKeyMsg tc m "t"
          = some (m, terminateWorkflowCmd w.workflow.workflowId w.workflow.runId)) ∧
    (∀ workflowId runId,
        runCmdConfirmation (terminateWorkflowCmd workflowId runId)
          = (0, some
              { state := .AWAITING_CONFIRMATION,
                areYouSureMessage :=
                  "Are you sure you want to terminate workflow " ++ workflowId ++ "?",
                pendingConfirmationMessage :=
                  "Are you sure you want to terminate this workflow?",
                commandThatRunsOnConfirmation := .terminateAction workflowId runId })) ∧
    (∀ (m : model) (msg : confirmationFlowStateMsg),
        msg.state = .AWAITING_CONFIRMATION →
        applyConfirmationFlowStateMsg m msg
          = ({ m with confirmationFlowState := msg }, .none)) ∧
    (∀ (tc : String → String) (m : model),
        m.confirmationFlowState.state = .AWAITING_CONFIRMATION →
        applyKeyMsg tc m "n"
          = some ({ m with confirmationFlowState :=
              { m.confirmationFlowState with state := .NO_FLOW_RUNNING } }, .none)) ∧
    runCmdConfirmation .none = (0, none) ∧
    (∀ (tc : String → String) (m : model),
        m.confirmationFlowState.state = .AWAITING_CONFIRMATION →
        applyKeyMsg tc m "y"
          = some ({ m with confirmationFlowState :=
              { m.confirmationFlowState with state := .EXECUTING_ACTION } },
              .runConfirmedAction
                { m.confirmationFlowState with state := .EXECUTING_ACTION })) ∧
    (∀ st : confirmationFlowStateMsg,
        runCmdConfirmation (.runConfirmedAction st)
          = (1, some { st with state := .ACTION_COMPLETED })) ∧
    (∀ (m : model) (msg : confirmationFlowStateMsg),
        msg.state = .ACTION_COMPLETED →
        applyConfirmationFlowStateMsg m msg
          = (clearListState { m with confirmationFlowState := msg }, .clearCompletion msg)) ∧
    (∀ st : confirmationFlowStateMsg,
        runCmdConfirmation (.clearCompletion st)
          = (0, some { st with state := .NO_FLOW_RUNNING })) ∧
    (∀ (m : model) (msg : confirmationFlowStateMsg),
        msg.state = .NO_FLOW_RUNNING →
        applyConfirmationFlowStateMsg m msg
          = ({ m with confirmationFlowState := msg }, .none)) := by
  refine ⟨?_, fun wid rid => rfl, ?_, ?_, rfl, ?_, fun st => rfl, ?_, fun st => rfl, ?_⟩
  · intro tc m w hidle hstack hfoc hcur hw
    unfold applyKeyMsg
    rw [if_neg (fun h => absurd h.2 (by decide)), if_neg (fun h => absurd h.2 (by decide)),
      hfoc]
    simp [handleSearchModeSelect, keyMatches, keysSearchWorkflowType, keysSearchWorkflowId,
      keysSearchExecutionStatus, keysExit, keysToggleParentWorkflowMode, keysRestartWorkflow,
      keysTerminateWorkflow, hcur, hw]
  · intro m msg hmsg
    unfold applyConfirmationFlowStateMsg
    rw [hmsg]
  · intro tc m hawait
    unfold applyKeyMsg
    rw [if_neg (fun h => absurd h.2 (by decide)), if_pos ⟨hawait, rfl⟩]
  · intro tc m hawait
    unfold applyKeyMsg
    rw [if_pos ⟨hawait, rfl⟩]
  · intro m msg hmsg
    unfold applyConfirmationFlowStateMsg
    rw [hmsg]
  · intro m msg hmsg
    unfold applyConfirmationFlowStateMsg
    rw [hmsg]

/-- Witness for C7: a full concrete scenario around `wf-a` / `wf-1`. -/
theorem confirmationFlow_transition_contract_witness :
    applyKeyMsg idPretty idleRowModel "t"
      = some (idleRowModel,
          terminateWorkflowCmd sampleRowA.workflow.workflowId sampleRowA.workflow.runId) ∧
    applyKeyMsg idPretty awaitingModel "n"
      = some ({ awaitingModel with confirmationFlowState :=
          { awaitingModel.confirmationFlowState with state := .NO_FLOW_RUNNING } }, .none) ∧
    applyKeyMsg idPretty awaitingModel "y"
      = some ({ awaitingModel with confirmationFlowState :=
          { awaitingModel.confirmationFlowState with state := .EXECUTING_ACTION } },
          .runConfirmedAction
            { awaitingModel.confirmationFlowState with state := .EXECUTING_ACTION }) :=
  ⟨confirmationFlow_transition_contract.1 idPretty idleRowModel sampleRowA
      rfl rfl rfl (by decide) (by decide),
   confirmationFlow_transition_contract.2.2.2.1 idPretty awaitingModel rfl,
   (confirmationFlow_transition_contract.2.2.2.2.2.1) idPretty awaitingModel rfl⟩

/-- **C8** (amended).  Sequential paging uses the cached token: applying a
page fetch's result caches its next-page token for the following page, and
the next-page keypress then issues the list request with exactly that
token; the initial (page-0) request from a cleared list state uses the
empty token.  When the token for the new page is NOT in the cache, the
request is not rejected: it is issued anyway, with the zero-value empty
token (see `pagination_missing_token_not_rejected`). -/
theorem pagination_token_discipline :
    (∀ (tc : String → String) (m : model) (rows : List workflowTableListItem)
        (tok : List Nat), m.searchInputFocused = false →
        applyKeyMsg tc (applyUpdateWorkflowsMsg m rows tok) "]"
          = some ({ applyUpdateWorkflowsMsg m rows tok with page := m.page + 1 },
              .refetchWorkflows
                { query := constructQueryString m.parentWorkflowMode m.activeSearchParams,
                  pageSize := TABLE_LIST_PAGE_SIZE, nextPageToken := tok })) ∧
    (∀ (tc : String → String) (m : model), m.searchInputFocused = false →
        applyKeyMsg tc m "]"
          = some ({ m with page := m.page + 1 },
              .refetchWorkflows (refetchWorkflowsRequest { m with page := m.page + 1 }))) ∧
    (∀ m : model, (refetchWorkflowsRequest (clearListState m)).nextPageToken = []) := by
  refine ⟨?_, nextPage_increments_and_refetches, fun m => rfl⟩
  intro tc m rows tok hfoc
  have h1 := nextPage_increments_and_refetches tc (applyUpdateWorkflowsMsg m rows tok)
    (by simpa [applyUpdateWorkflowsMsg] using hfoc)
  rw [h1]
  have h2 : refetchWorkflowsRequest
      { applyUpdateWorkflowsMsg m rows tok with
        page := (applyUpdateWorkflowsMsg m rows tok).page + 1 }
      = { query := constructQueryString m.parentWorkflowMode m.activeSearchParams,
          pageSize := TABLE_LIST_PAGE_SIZE,
          nextPageToken :=
            (lookupNat (updNat m.nextPageTokenCache (m.page + 1) tok) (m.page + 1)).getD [] } :=
    rfl
  rw [h2, lookupNat_updNat]
  simp [applyUpdateWorkflowsMsg]

/-- Witness for C8 from the startup state. -/
theorem pagination_token_discipline_witness :
    applyKeyMsg idPretty (applyUpdateWorkflowsMsg initialListModel [] [5]) "]"
      = some ({ applyUpdateWorkflowsMsg initialListModel [] [5] with
            page := initialListModel.page + 1 },
          .refetchWorkflows
            { query := constructQueryString initialListModel.parentWorkflowMode
                initialListModel.activeSearchParams,
              pageSize := TABLE_LIST_PAGE_SIZE, nextPageToken := [5] }) :=
  pagination_token_discipline.1 idPretty initialListModel [] [5] rfl

/-- Counterexample to C8 as stated: on page 1 with no cached token for page
2 (`missingTokenModel`), the next-page keypress is NOT rejected and does
not force a sequential resolve — the list request is issued with the empty
zero-value token, i.e. a first-page request labelled page 2. -/
theorem pagination_missing_token_not_rejected :
    lookupNat missingTokenModel.nextPageTokenCache (missingTokenModel.page + 1) = none ∧
    applyKeyMsg idPretty missingTokenModel "]"
      = some ({ missingTokenModel with page := 2 },
          .refetchWorkflows { query := "", pageSize := 40, nextPageToken := [] }) := by
  exact ⟨rfl, by decide⟩

/-- **C10.** In the root list view (empty focus stack, search input not
focused), the row-targeting keys — terminate "t", restart "R",
open-in-browser "o", focus "f" — are guarded by `cursor < len(workflows)`:
when the cursor is not a valid row index (in particular when the row
collection is empty) the keypress leaves the state unchanged and dispatches
no command. -/
theorem rowTargeting_keys_guarded (tc : String → String) (m : model) (key : String)
    (hkey : key = "t" ∨ key = "R" ∨ key = "o" ∨ key = "f")
    (hstack : m.compactedHistoryStack = [])
    (hfoc : m.searchInputFocused = false)
    (hcur : ¬ m.cursor < m.workflows.length) :
    applyKeyMsg tc m key = some (m, .none) := by
  have hlen : ¬ m.compactedHistoryStack.length > 0 := by
    rw [hstack]
    simp
  rcases hkey with rfl | rfl | rfl | rfl <;>
  · unfold applyKeyMsg
    rw [if_neg (fun h => absurd h.2 (by decide)), if_neg (fun h => absurd h.2 (by decide)),
      hfoc]
    simp [handleSearchModeSelect, keyMatches, keysSearchWorkflowType, keysSearchWorkflowId,
      keysSearchExecutionStatus, keysExit, keysToggleParentWorkflowMode, keysRestartWorkflow,
      keysTerminateWorkflow, keysOpenWorkflowInWeb, keysHelp, keysNextPage, keysPrevPage,
      keysClearSearch, keysRefetchWorkflows, keysFocusWorkflow, keysUp, keysDown, keysSelect,
      hcur, hlen]

/-- Witness for C10: the empty list ignores all four row-targeting keys. -/
theorem rowTargeting_keys_guarded_witness :
    applyKeyMsg idPretty initialListModel "t" = some (initialListModel, .none) :=
  rowTargeting_keys_guarded idPretty initialListModel "t" (Or.inl rfl) rfl rfl (by decide)

end Kairos
